import Mathlib

/-!
Verification of the profiling object-store instrumentation layer of this
repository (`src/main.rs`) against its specification.

The repository's own source holds `main`, `ProfilingObjectStoreWrapper`
(`new`, the `WrappingObjectStore::wrap` impl) and the report/export flow
in `main`.  The instrumented store itself (`pprof_object_store::
ProfilingObjectStore`) and the pprof fork's `Profiler` / `ReportBuilder`
are external crates, not part of `src/`; their behavior is modelled from
the spec where marked.

The two `Arc<RwLock<pprof::Result<Profiler>>>` handles of the wrapper are
modelled as indices into a heap (`Heap := Nat → ProfilerSlot`), so handle
sharing between `wrap` results and `ReportBuilder` is observable.
-/

/-- One recorded profiling event: a call-context stack of frame ids and one
numeric value per declared sample type (from the spec's data model). -/
structure Sample where
  stack : List Nat
  values : List Int
deriving DecidableEq, Repr

/-- Error kinds of the profiling layer, from the spec's error-handling design
(section 7) and mirroring `pprof::Error` in the pprof fork. -/
inductive PprofError
  | profilerInitError
  | reportBuildError
  | serializationError
deriving DecidableEq, Repr

/-- Modelled from the spec: a Sampler owns a growable collection of Samples
(`pprof::Profiler` of the pprof fork; its code is not under `src/`). -/
structure Profiler where
  samples : List Sample
deriving DecidableEq, Repr

/-- Modelled from the spec: `Profiler::new()` on success yields a freshly
initialized, empty sampler ("created once at wrapper-construction time"). -/
def Profiler.new : Profiler := ⟨[]⟩

instance {ε α : Type} [DecidableEq ε] [DecidableEq α] : DecidableEq (Except ε α) :=
  fun a b =>
    match a, b with
    | .ok x, .ok y =>
        if h : x = y then .isTrue (by subst h; rfl)
        else .isFalse (fun hc => h (Except.ok.inj hc))
    | .error x, .error y =>
        if h : x = y then .isTrue (by subst h; rfl)
        else .isFalse (fun hc => h (Except.error.inj hc))
    | .ok _, .error _ => .isFalse (fun hc => Except.noConfusion hc)
    | .error _, .ok _ => .isFalse (fun hc => Except.noConfusion hc)

/-- What one `Arc<RwLock<pprof::Result<Profiler>>>` cell holds: either a
working profiler or its initialization error. -/
abbrev ProfilerSlot : Type := Except PprofError Profiler

/-- The heap of profiler cells; wrapper handles are indices into it, so that
two `Arc` clones of one handle denote the same cell. -/
abbrev Heap : Type := Nat → ProfilerSlot

/-- Write one cell of the heap. -/
def Heap.write (h : Heap) (i : Nat) (v : ProfilerSlot) : Heap :=
  fun j => if j = i then v else h j

/-- Errors of the wrapped object-storage backend; passed through untouched by
the instrumentation layer. -/
inductive StoreError
  | notFound (key : String)
  | other (msg : String)
deriving DecidableEq, Repr

/-- An object-storage backend over an abstract backend state `σ`: `get`
returns bytes or an error, `put` stores bytes, each stepping the state. -/
structure Backend (σ : Type) where
  get : σ → String → Except StoreError (List Nat) × σ
  put : σ → String → List Nat → Except StoreError Unit × σ

/-- Modelled from the spec: the synthetic Sample recorded per instrumented
call — a single synthetic stack frame and `values = [1]`, a pure invocation
counter (section 4.2; `pprof_object_store` is not under `src/`). -/
def recordedSample : Sample := ⟨[0], [1]⟩

/-- Modelled from the spec: recording into the profiler cell at handle `i`.
If the cell holds a working profiler, append one Sample; if the profiler is
in a failed state, skip silently (recording must not fail the call). -/
def recordSample (h : Heap) (i : Nat) : Heap :=
  match h i with
  | .ok p => h.write i (.ok ⟨p.samples ++ [recordedSample]⟩)
  | .error _ => h

/-- The instrumented store (`pprof_object_store::ProfilingObjectStore`): the
wrapped backend plus one profiler handle per instrumented operation kind,
mirroring its fields `inner`, `get_profiler`, `put_profiler`. -/
structure ProfilingObjectStore (σ : Type) where
  inner : Backend σ
  get_profiler : Nat
  put_profiler : Nat

/-- Modelled from the spec: `ProfilingObjectStore::get` delegates to the
backend with the caller's arguments unchanged, records exactly one Sample on
the read-path profiler independently of the outcome, and returns the
backend's result unchanged (its code is in `pprof_object_store`, not
under `src/`). -/
def ProfilingObjectStore.get (s : ProfilingObjectStore σ) (st : σ) (h : Heap)
    (key : String) : Except StoreError (List Nat) × σ × Heap :=
  let r := s.inner.get st key
  (r.1, r.2, recordSample h s.get_profiler)

/-- Modelled from the spec: `ProfilingObjectStore::put`, the write-path twin
of `get`. -/
def ProfilingObjectStore.put (s : ProfilingObjectStore σ) (st : σ) (h : Heap)
    (key : String) (val : List Nat) : Except StoreError Unit × σ × Heap :=
  let r := s.inner.put st key val
  (r.1, r.2, recordSample h s.put_profiler)

/-- One storage operation of the capability surface. -/
inductive Op
  | get (key : String)
  | put (key : String) (val : List Nat)
deriving DecidableEq, Repr

/-- The result of one storage operation. -/
inductive OpResult
  | gotten (r : Except StoreError (List Nat))
  | putted (r : Except StoreError Unit)
deriving DecidableEq, Repr

/-- Run a sequence of operations through the instrumented store, threading
the backend state and the profiler heap. -/
def runOps (s : ProfilingObjectStore σ) (st : σ) (h : Heap) :
    List Op → List OpResult × σ × Heap
  | [] => ([], st, h)
  | Op.get k :: rest =>
      let r := s.get st h k
      let rec' := runOps s r.2.1 r.2.2 rest
      (OpResult.gotten r.1 :: rec'.1, rec'.2)
  | Op.put k v :: rest =>
      let r := s.put st h k v
      let rec' := runOps s r.2.1 r.2.2 rest
      (OpResult.putted r.1 :: rec'.1, rec'.2)

/-- Run the same sequence of operations directly against the unwrapped
backend. -/
def runOpsDirect (b : Backend σ) (st : σ) : List Op → List OpResult × σ
  | [] => ([], st)
  | Op.get k :: rest =>
      let r := b.get st k
      let rec' := runOpsDirect b r.2 rest
      (OpResult.gotten r.1 :: rec'.1, rec'.2)
  | Op.put k v :: rest =>
      let r := b.put st k v
      let rec' := runOpsDirect b r.2 rest
      (OpResult.putted r.1 :: rec'.1, rec'.2)

/-- Number of `get` operations in a sequence. -/
def countGets : List Op → Nat
  | [] => 0
  | Op.get _ :: rest => countGets rest + 1
  | Op.put _ _ :: rest => countGets rest

/-- Number of `put` operations in a sequence. -/
def countPuts : List Op → Nat
  | [] => 0
  | Op.get _ :: rest => countPuts rest
  | Op.put _ _ :: rest => countPuts rest + 1

/-- Append one recorded Sample to a profiler cell (no-op on a failed one). -/
def appendOne : ProfilerSlot → ProfilerSlot
  | .ok p => .ok ⟨p.samples ++ [recordedSample]⟩
  | .error e => .error e

/-- Append `n` recorded Samples to a profiler cell (no-op on a failed one). -/
def appendN : ProfilerSlot → Nat → ProfilerSlot
  | .ok p, n => .ok ⟨p.samples ++ List.replicate n recordedSample⟩
  | .error e, _ => .error e

/-- `ProfilingObjectStoreWrapper` (`src/main.rs` lines 124-127): one shared
profiler handle per operation kind. -/
structure ProfilingObjectStoreWrapper where
  get_profile : Nat
  put_profile : Nat
deriving DecidableEq, Repr

/-- The heap as `ProfilingObjectStoreWrapper::new` leaves it: handle 0 is the
read-path cell, handle 1 the write-path cell, each holding `Ok(profiler)`. -/
def initialHeap (g p : Profiler) : Heap :=
  fun i => if i = 0 then .ok g else if i = 1 then .ok p else .error .profilerInitError

/-- `ProfilingObjectStoreWrapper::new` (`src/main.rs` lines 137-144): builds
the two cells from the two `Profiler::new()` call results `g` and `p`.  The
Rust code calls `.unwrap()` on each result, so an `Err` from `Profiler::new`
panics the process, modelled as `none`; on success each cell holds
`Ok(profiler)`. -/
def ProfilingObjectStoreWrapper.new (g p : Except PprofError Profiler) :
    Option (ProfilingObjectStoreWrapper × Heap) :=
  match g, p with
  | .ok gp, .ok pp => some (⟨0, 1⟩, initialHeap gp pp)
  | _, _ => none

/-- `WrappingObjectStore::wrap` for `ProfilingObjectStoreWrapper`
(`src/main.rs` lines 147-156): builds a `ProfilingObjectStore` over the
original backend, cloning the wrapper's two profiler handles. -/
def ProfilingObjectStoreWrapper.wrap (w : ProfilingObjectStoreWrapper)
    (original : Backend σ) : ProfilingObjectStore σ :=
  ⟨original, w.get_profile, w.put_profile⟩

/-- Measurement unit of a sample type (`pprof::Unit`). -/
inductive PprofUnit
  | count
  | nanoseconds
deriving DecidableEq, Repr

/-- A declared `(name, unit)` sample-type descriptor (`pprof::SampleType`). -/
structure SampleType where
  name : String
  unit : PprofUnit
deriving DecidableEq, Repr

/-- Report timing metadata (`pprof::ReportTiming`): start/end bounds. -/
structure ReportTiming where
  startTime : Nat
  endTime : Nat
deriving DecidableEq, Repr

/-- An immutable Report: all Samples of one Sampler plus the declared
sample-type descriptors and timing bounds. -/
structure Report where
  samples : List Sample
  sampleTypes : List SampleType
  timing : ReportTiming
deriving DecidableEq, Repr

/-- Modelled from the spec: `ReportBuilder::build` of the pprof fork (not
under `src/`).  Fails with a report-build error when the Sampler is in a
failed state or some recorded Sample's value-vector length differs from the
declared sample-type count; otherwise the Report is a straight structural
copy of the Sampler's samples. -/
def ReportBuilder.build (slot : ProfilerSlot) (types : List SampleType)
    (timing : ReportTiming) : Except PprofError Report :=
  match slot with
  | .error _ => .error .reportBuildError
  | .ok p =>
      if ∀ s ∈ p.samples, s.values.length = types.length then
        .ok ⟨p.samples, types, timing⟩
      else
        .error .reportBuildError

/-- The sample-type list `main` declares for the read-path report
(`src/main.rs` lines 58-63). -/
def getSampleTypes : List SampleType := [⟨"object_store_get", .count⟩]

/-- The sample-type list `main` declares for the write-path report
(`src/main.rs` lines 76-81). -/
def putSampleTypes : List SampleType := [⟨"object_store_put", .count⟩]

/-- State of the export destination file: its path and, once `File::create`
has run, its byte contents (`none` means the file does not exist). -/
structure FsState where
  path : String
  contents : Option (List Nat)
deriving DecidableEq, Repr

/-- The destination before `File::create`: no file. -/
def FsState.initial (p : String) : FsState := ⟨p, none⟩

/-- `File::create`: the file now exists, truncated to empty. -/
def FsState.create (fs : FsState) : FsState := ⟨fs.path, some []⟩

/-- `file.write_all(&content)`: the file now holds the bytes. -/
def FsState.writeAll (fs : FsState) (bytes : List Nat) : FsState :=
  ⟨fs.path, some bytes⟩

/-- How one profile-export block of `main` ends: all unwraps succeeded, or
some `.unwrap()` panicked the process. -/
inductive ExportEnd
  | completed
  | panicked
deriving DecidableEq, Repr

/-- One profile-export block of `main` (`src/main.rs` lines 65-71 and 83-89):
`report_builder.build().unwrap()`, then `File::create(path).unwrap()`, then
`report.pprof()` / `write_to_vec` (abstracted as `serialize`, whose
`.unwrap()`s panic on error), then `file.write_all(&content).unwrap()`.
Returns the final file state and how the block ended. -/
def exportReport (path : String) (buildRes : Except PprofError Report)
    (serialize : Report → Except PprofError (List Nat)) : FsState × ExportEnd :=
  match buildRes with
  | .error _ => (FsState.initial path, .panicked)
  | .ok r =>
      let fs := (FsState.initial path).create
      match serialize r with
      | .error _ => (fs, .panicked)
      | .ok bytes => (fs.writeAll bytes, .completed)

/-- The read-path export of `main` (`src/main.rs` lines 65-71): destination
hardcoded to the literal `"get_profile.pb"`. -/
def mainExportGet (buildRes : Except PprofError Report)
    (serialize : Report → Except PprofError (List Nat)) : FsState × ExportEnd :=
  exportReport "get_profile.pb" buildRes serialize

/-- The write-path export of `main` (`src/main.rs` lines 83-89): destination
hardcoded to the literal `"put_profile.pb"`. -/
def mainExportPut (buildRes : Except PprofError Report)
    (serialize : Report → Except PprofError (List Nat)) : FsState × ExportEnd :=
  exportReport "put_profile.pb" buildRes serialize

/-- A trivial always-succeeding in-memory backend over the unit state, used
to instantiate universally quantified statements. -/
def unitBackend : Backend Unit :=
  ⟨fun st _ => (.ok [], st), fun st _ _ => (.ok (), st)⟩

/-- A heap whose every cell is a failed profiler. -/
def failedHeap : Heap := fun _ => .error .profilerInitError

/-- A concrete instrumented store over `unitBackend` with the handle layout
`ProfilingObjectStoreWrapper::new` produces. -/
def demoStore : ProfilingObjectStore Unit := ⟨unitBackend, 0, 1⟩

/-- A concrete wrapper with the handle layout of
`ProfilingObjectStoreWrapper::new`. -/
def demoWrapper : ProfilingObjectStoreWrapper := ⟨0, 1⟩

/-- A concrete empty Report, used to instantiate export statements. -/
def exampleReport : Report := ⟨[], getSampleTypes, ⟨0, 0⟩⟩

/-- A serializer that always succeeds with the bytes `[7]`. -/
def okSerialize : Report → Except PprofError (List Nat) := fun _ => .ok [7]

theorem recordSample_self (h : Heap) (i : Nat) :
    recordSample h i i = appendOne (h i) := by
  cases hi : h i with
  | ok p => simp [recordSample, hi, Heap.write, appendOne]
  | error e => simp [recordSample, hi, appendOne]

theorem recordSample_other (h : Heap) (i j : Nat) (hne : j ≠ i) :
    recordSample h i j = h j := by
  unfold recordSample
  cases h i with
  | ok p => simp [Heap.write, hne]
  | error e => rfl

theorem appendN_appendOne (x : ProfilerSlot) (n : Nat) :
    appendN (appendOne x) n = appendN x (n + 1) := by
  cases x with
  | ok p =>
      simp [appendOne, appendN, List.replicate_succ]
  | error e => simp [appendOne, appendN]

theorem appendN_zero (x : ProfilerSlot) : appendN x 0 = x := by
  cases x <;> simp [appendN]

theorem appendN_add (x : ProfilerSlot) (m n : Nat) :
    appendN (appendN x m) n = appendN x (m + n) := by
  cases x with
  | ok p =>
      simp only [appendN]
      rw [List.append_assoc, ← List.replicate_add]
  | error e => rfl

theorem countGets_replicate (n : Nat) (k : String) :
    countGets (List.replicate n (Op.get k)) = n := by
  induction n with
  | zero => simp [countGets]
  | succ m ih => simp [List.replicate_succ, countGets, ih]

/-- After any sequence of operations, the read-path cell holds exactly its
previous samples plus one recorded Sample per `get` in the sequence. -/
theorem runOps_getSlot (s : ProfilingObjectStore σ)
    (hne : s.get_profiler ≠ s.put_profiler) (st : σ) (h : Heap) (ops : List Op) :
    (runOps s st h ops).2.2 s.get_profiler =
      appendN (h s.get_profiler) (countGets ops) := by
  induction ops generalizing st h with
  | nil => simp [runOps, countGets, countPuts, appendN_zero]
  | cons op rest ih =>
      cases op with
      | get k =>
          simp only [runOps, ProfilingObjectStore.get, countGets]
          rw [ih, recordSample_self, appendN_appendOne]
      | put k v =>
          simp only [runOps, ProfilingObjectStore.put, countGets]
          rw [ih, recordSample_other _ _ _ hne]

/-- After any sequence of operations, the write-path cell holds exactly its
previous samples plus one recorded Sample per `put` in the sequence. -/
theorem runOps_putSlot (s : ProfilingObjectStore σ)
    (hne : s.get_profiler ≠ s.put_profiler) (st : σ) (h : Heap) (ops : List Op) :
    (runOps s st h ops).2.2 s.put_profiler =
      appendN (h s.put_profiler) (countPuts ops) := by
  induction ops generalizing st h with
  | nil => simp [runOps, countGets, countPuts, appendN_zero]
  | cons op rest ih =>
      cases op with
      | get k =>
          simp only [runOps, ProfilingObjectStore.get, countPuts]
          rw [ih, recordSample_other _ _ _ (Ne.symm hne)]
      | put k v =>
          simp only [runOps, ProfilingObjectStore.put, countPuts]
          rw [ih, recordSample_self, appendN_appendOne]

/-- Results and final backend state of an instrumented run coincide with the
direct run; proved by one induction for use in the transparency theorem. -/
theorem runOps_refines (s : ProfilingObjectStore σ) (st : σ) (h : Heap)
    (ops : List Op) :
    (runOps s st h ops).1 = (runOpsDirect s.inner st ops).1 ∧
      (runOps s st h ops).2.1 = (runOpsDirect s.inner st ops).2 := by
  induction ops generalizing st h with
  | nil => simp [runOps, runOpsDirect]
  | cons op rest ih =>
      cases op with
      | get k =>
          simp only [runOps, runOpsDirect, ProfilingObjectStore.get]
          exact ⟨by rw [(ih _ _).1], (ih _ _).2⟩
      | put k v =>
          simp only [runOps, runOpsDirect, ProfilingObjectStore.put]
          exact ⟨by rw [(ih _ _).1], (ih _ _).2⟩

/-- C1: for every sequence of get/put calls and every input (including
error-inducing ones), the results returned through the store produced by
`ProfilingObjectStoreWrapper::wrap` equal the results of calling the
unwrapped backend directly with the same arguments, success or error, and
the final backend state is the same. -/
theorem instrumented_store_transparent (σ : Type)
    (w : ProfilingObjectStoreWrapper) (b : Backend σ) (st : σ) (h : Heap)
    (ops : List Op) :
    (runOps (w.wrap b) st h ops).1 = (runOpsDirect b st ops).1 ∧
      (runOps (w.wrap b) st h ops).2.1 = (runOpsDirect b st ops).2 :=
  runOps_refines (w.wrap b) st h ops

/-- C2: after `N` get calls through a store wrapped by a freshly constructed
`ProfilingObjectStoreWrapper`, a Report built from the read-path profiler
cell contains exactly `N` Samples, each with `values = [1]`, for any backend
(so in particular for one that always succeeds, and independently of each
call's outcome). -/
theorem get_report_counts_calls (σ : Type) (b : Backend σ) (st : σ)
    (N : Nat) (k : String) (timing : ReportTiming)
    (w : ProfilingObjectStoreWrapper) (h : Heap)
    (hw : ProfilingObjectStoreWrapper.new (.ok Profiler.new) (.ok Profiler.new)
      = some (w, h)) :
    ∃ r : Report,
      ReportBuilder.build
        ((runOps (w.wrap b) st h (List.replicate N (Op.get k))).2.2
          w.get_profile) getSampleTypes timing = .ok r ∧
      r.samples.length = N ∧ ∀ s ∈ r.samples, s.values = [1] := by
  simp only [ProfilingObjectStoreWrapper.new, Option.some.injEq,
    Prod.mk.injEq] at hw
  obtain ⟨hw1, hw2⟩ := hw
  subst hw1
  subst hw2
  have hne : (ProfilingObjectStoreWrapper.wrap ⟨0, 1⟩ b).get_profiler ≠
      (ProfilingObjectStoreWrapper.wrap ⟨0, 1⟩ b).put_profiler := by
    simp [ProfilingObjectStoreWrapper.wrap]
  have hslot := runOps_getSlot (ProfilingObjectStoreWrapper.wrap ⟨0, 1⟩ b)
    hne st (initialHeap Profiler.new Profiler.new)
    (List.replicate N (Op.get k))
  have hread : (runOps (ProfilingObjectStoreWrapper.wrap ⟨0, 1⟩ b) st
      (initialHeap Profiler.new Profiler.new)
      (List.replicate N (Op.get k))).2.2
      (ProfilingObjectStoreWrapper.get_profile ⟨0, 1⟩) =
      Except.ok ⟨List.replicate N recordedSample⟩ := by
    rw [show ProfilingObjectStoreWrapper.get_profile ⟨0, 1⟩ =
      (ProfilingObjectStoreWrapper.wrap ⟨0, 1⟩ b).get_profiler from rfl,
      hslot, countGets_replicate]
    simp [ProfilingObjectStoreWrapper.wrap, initialHeap, appendN,
      Profiler.new]
  rw [hread]
  have hcond : ∀ s ∈ List.replicate N recordedSample,
      s.values.length = getSampleTypes.length := by
    intro s hs
    rw [List.eq_of_mem_replicate hs]
    rfl
  refine ⟨⟨List.replicate N recordedSample, getSampleTypes, timing⟩, ?_, ?_, ?_⟩
  · simp only [ReportBuilder.build]
    rw [if_pos hcond]
  · simp
  · intro s hs
    rw [List.eq_of_mem_replicate hs]
    rfl

theorem get_report_counts_calls_witness :
    ProfilingObjectStoreWrapper.new (.ok Profiler.new) (.ok Profiler.new)
      = some (⟨0, 1⟩, initialHeap Profiler.new Profiler.new) ∧
    ∃ r : Report,
      ReportBuilder.build
        ((runOps (ProfilingObjectStoreWrapper.wrap ⟨0, 1⟩ unitBackend) ()
          (initialHeap Profiler.new Profiler.new)
          (List.replicate 3 (Op.get "k"))).2.2
          (ProfilingObjectStoreWrapper.get_profile ⟨0, 1⟩))
        getSampleTypes ⟨0, 0⟩ = .ok r ∧
      r.samples.length = 3 ∧ ∀ s ∈ r.samples, s.values = [1] :=
  ⟨rfl, get_report_counts_calls Unit unitBackend () 3 "k" ⟨0, 0⟩ ⟨0, 1⟩
    (initialHeap Profiler.new Profiler.new) rfl⟩

/-- C3: with both profiler cells in a failed state, get/put through the
instrumented store still return the backend's result with the heap (and so
the failed cells) untouched — recording is skipped silently and no profiling
failure reaches the storage caller — while building a Report from either
failed cell fails with the report-build error. -/
theorem failed_profiler_isolated (σ : Type) (s : ProfilingObjectStore σ)
    (st : σ) (h : Heap) (k : String) (v : List Nat) (e1 e2 : PprofError)
    (types : List SampleType) (timing : ReportTiming)
    (hg : h s.get_profiler = .error e1) (hp : h s.put_profiler = .error e2) :
    (s.get st h k).1 = (s.inner.get st k).1 ∧
    (s.get st h k).2.2 = h ∧
    (s.put st h k v).1 = (s.inner.put st k v).1 ∧
    (s.put st h k v).2.2 = h ∧
    ReportBuilder.build (h s.get_profiler) types timing =
      .error .reportBuildError ∧
    ReportBuilder.build (h s.put_profiler) types timing =
      .error .reportBuildError := by
  have hrg : recordSample h s.get_profiler = h := by
    unfold recordSample
    rw [hg]
  have hrp : recordSample h s.put_profiler = h := by
    unfold recordSample
    rw [hp]
  refine ⟨rfl, hrg, rfl, hrp, ?_, ?_⟩
  · rw [hg]
    rfl
  · rw [hp]
    rfl

theorem failed_profiler_isolated_witness :
    failedHeap demoStore.get_profiler = .error .profilerInitError ∧
    failedHeap demoStore.put_profiler = .error .profilerInitError ∧
    ((demoStore.get () failedHeap "k").1 =
        (demoStore.inner.get () "k").1 ∧
     (demoStore.get () failedHeap "k").2.2 = failedHeap ∧
     (demoStore.put () failedHeap "k" [7]).1 =
        (demoStore.inner.put () "k" [7]).1 ∧
     (demoStore.put () failedHeap "k" [7]).2.2 = failedHeap ∧
     ReportBuilder.build (failedHeap demoStore.get_profiler)
        getSampleTypes ⟨0, 0⟩ = .error .reportBuildError ∧
     ReportBuilder.build (failedHeap demoStore.put_profiler)
        getSampleTypes ⟨0, 0⟩ = .error .reportBuildError) :=
  ⟨rfl, rfl, failed_profiler_isolated Unit demoStore () failedHeap "k" [7]
    .profilerInitError .profilerInitError getSampleTypes ⟨0, 0⟩ rfl rfl⟩

/-- C4: evaluation of `ProfilingObjectStoreWrapper::new` at the failing
inputs.  When either `Profiler::new()` call fails, the Rust code calls
`.unwrap()` on the error and panics (modelled as `none`) instead of
propagating or surfacing the initialization error, contradicting the claim
and the code's own `// TODO no unwrap` comment. -/
theorem wrapper_new_panics_on_init_failure :
    ProfilingObjectStoreWrapper.new (.error .profilerInitError)
      (.ok Profiler.new) = none ∧
    ProfilingObjectStoreWrapper.new (.ok Profiler.new)
      (.error .profilerInitError) = none ∧
    ProfilingObjectStoreWrapper.new (.error .profilerInitError)
      (.error .profilerInitError) = none :=
  ⟨rfl, rfl, rfl⟩

/-- C5: `ReportBuilder::build` fails with the report-build error whenever the
Sampler is in a failed state or some recorded Sample's value-vector length
differs from the declared sample-type count; the mismatched Sampler is never
coerced into a Report. -/
theorem report_build_rejects_failed_or_mismatched (p : Profiler)
    (types : List SampleType) (timing : ReportTiming) (e : PprofError)
    (hbad : ¬ ∀ s ∈ p.samples, s.values.length = types.length) :
    ReportBuilder.build (.error e) types timing = .error .reportBuildError ∧
    ReportBuilder.build (.ok p) types timing = .error .reportBuildError := by
  constructor
  · rfl
  · simp only [ReportBuilder.build]
    rw [if_neg hbad]

theorem report_build_rejects_failed_or_mismatched_witness :
    (¬ ∀ s ∈ (Profiler.mk [⟨[0], [1, 2]⟩]).samples,
        s.values.length = getSampleTypes.length) ∧
    (ReportBuilder.build (.error .profilerInitError) getSampleTypes ⟨0, 0⟩ =
        .error .reportBuildError ∧
     ReportBuilder.build (.ok (Profiler.mk [⟨[0], [1, 2]⟩])) getSampleTypes
        ⟨0, 0⟩ = .error .reportBuildError) :=
  ⟨by decide, report_build_rejects_failed_or_mismatched ⟨[⟨[0], [1, 2]⟩]⟩
    getSampleTypes ⟨0, 0⟩ .profilerInitError (by decide)⟩

/-- C6: `wrap` hands the wrapper's own profiler handles to the instrumented
store — the Sampler the store records into is the identical cell
`ReportBuilder` later reads — and report building is a straight structural
copy: when the cardinality check passes, the Report holds exactly the
Sampler's sample list, so every recorded Sample appears exactly once. -/
theorem sampler_handoff_structural_copy (σ : Type)
    (w : ProfilingObjectStoreWrapper) (b : Backend σ) (p : Profiler)
    (types : List SampleType) (timing : ReportTiming)
    (hlen : ∀ s ∈ p.samples, s.values.length = types.length) :
    (w.wrap b).get_profiler = w.get_profile ∧
    (w.wrap b).put_profiler = w.put_profile ∧
    ReportBuilder.build (.ok p) types timing =
      .ok ⟨p.samples, types, timing⟩ := by
  refine ⟨rfl, rfl, ?_⟩
  simp only [ReportBuilder.build]
  rw [if_pos hlen]

theorem sampler_handoff_structural_copy_witness :
    (∀ s ∈ (Profiler.mk [recordedSample]).samples,
        s.values.length = getSampleTypes.length) ∧
    ((demoWrapper.wrap unitBackend).get_profiler = demoWrapper.get_profile ∧
     (demoWrapper.wrap unitBackend).put_profiler = demoWrapper.put_profile ∧
     ReportBuilder.build (.ok (Profiler.mk [recordedSample])) getSampleTypes
        ⟨0, 0⟩ = .ok ⟨(Profiler.mk [recordedSample]).samples,
          getSampleTypes, ⟨0, 0⟩⟩) :=
  ⟨by decide, sampler_handoff_structural_copy Unit demoWrapper unitBackend
    ⟨[recordedSample]⟩ getSampleTypes ⟨0, 0⟩ (by decide)⟩

/-- C7: for every sequence of operations, each profiler cell of the
instrumented store ends holding exactly its previous samples plus one Sample
per operation of its own kind — `put` calls never add a Sample to the
read-path cell and `get` calls never add one to the write-path cell. -/
theorem no_cross_contamination (σ : Type) (s : ProfilingObjectStore σ)
    (st : σ) (h : Heap) (ops : List Op)
    (hne : s.get_profiler ≠ s.put_profiler) :
    (runOps s st h ops).2.2 s.get_profiler =
      appendN (h s.get_profiler) (countGets ops) ∧
    (runOps s st h ops).2.2 s.put_profiler =
      appendN (h s.put_profiler) (countPuts ops) :=
  ⟨runOps_getSlot s hne st h ops, runOps_putSlot s hne st h ops⟩

theorem no_cross_contamination_witness :
    demoStore.get_profiler ≠ demoStore.put_profiler ∧
    ((runOps demoStore () (initialHeap Profiler.new Profiler.new)
        [Op.put "a" [2], Op.get "b"]).2.2 demoStore.get_profiler =
      appendN ((initialHeap Profiler.new Profiler.new)
        demoStore.get_profiler) 1 ∧
     (runOps demoStore () (initialHeap Profiler.new Profiler.new)
        [Op.put "a" [2], Op.get "b"]).2.2 demoStore.put_profiler =
      appendN ((initialHeap Profiler.new Profiler.new)
        demoStore.put_profiler) 1) :=
  ⟨by decide, no_cross_contamination Unit demoStore ()
    (initialHeap Profiler.new Profiler.new) [Op.put "a" [2], Op.get "b"]
    (by decide)⟩

/-- C8 counterexample: with a serializer that fails, the read-path export of
`main` ends in a panic (the `.unwrap()` of `src/main.rs` lines 67/70) and
the already-created destination file is left on disk, empty — the failure is
not surfaced to a caller and the destination is neither completed nor
discarded, refuting the claim at this concrete input. -/
theorem export_failure_not_surfaced_counterexample :
    mainExportGet (.ok exampleReport)
        (fun _ => .error .serializationError) =
      (⟨"get_profile.pb", some []⟩, ExportEnd.panicked) ∧
    ¬ ((mainExportGet (.ok exampleReport)
        (fun _ => .error .serializationError)).1.contents = none ∨
       (mainExportGet (.ok exampleReport)
        (fun _ => .error .serializationError)).2 = ExportEnd.completed) :=
  ⟨rfl, by decide⟩

/-- C8 amended: the export writes the complete profile bytes only when every
serialization step succeeds; when serialization fails the block panics via
`.unwrap()` with the destination file already created and left empty, and
when report building fails it panics before the file is created — no error
value is ever returned to a caller. -/
theorem export_panics_on_serialization_failure (r : Report) (e : PprofError)
    (serialize : Report → Except PprofError (List Nat)) (bytes : List Nat)
    (hser : serialize r = .ok bytes) :
    mainExportGet (.ok r) (fun _ => .error e) =
      (⟨"get_profile.pb", some []⟩, ExportEnd.panicked) ∧
    mainExportGet (.error e) serialize =
      (⟨"get_profile.pb", none⟩, ExportEnd.panicked) ∧
    mainExportGet (.ok r) serialize =
      (⟨"get_profile.pb", some bytes⟩, ExportEnd.completed) := by
  refine ⟨rfl, rfl, ?_⟩
  simp only [mainExportGet, exportReport, hser]
  rfl

theorem export_panics_on_serialization_failure_witness :
    okSerialize exampleReport = .ok [7] ∧
    (mainExportGet (.ok exampleReport)
        (fun _ => .error PprofError.serializationError) =
      (⟨"get_profile.pb", some []⟩, ExportEnd.panicked) ∧
     mainExportGet (.error PprofError.serializationError) okSerialize =
      (⟨"get_profile.pb", none⟩, ExportEnd.panicked) ∧
     mainExportGet (.ok exampleReport) okSerialize =
      (⟨"get_profile.pb", some [7]⟩, ExportEnd.completed)) :=
  ⟨rfl, export_panics_on_serialization_failure exampleReport
    .serializationError okSerialize [7] rfl⟩

/-- C9 counterexample: on a successful export run the profile is written to
the hardcoded literal `"get_profile.pb"` (`File::create` at `src/main.rs`
line 66), not to a caller-chosen destination such as
`"caller_chosen_profile.pb"` — no caller-supplied path parameter exists. -/
theorem export_path_not_caller_chosen_counterexample :
    (mainExportGet (.ok exampleReport) okSerialize).1.path =
      "get_profile.pb" ∧
    (mainExportGet (.ok exampleReport) okSerialize).1.path ≠
      "caller_chosen_profile.pb" :=
  ⟨rfl, by decide⟩

/-- C9 amended: the destination paths of the two exported profiles are the
hardcoded literals `"get_profile.pb"` and `"put_profile.pb"` of `main`,
independent of every input of the export — they are not caller-supplied
configuration. -/
theorem export_paths_hardcoded (buildRes : Except PprofError Report)
    (serialize : Report → Except PprofError (List Nat)) :
    (mainExportGet buildRes serialize).1.path = "get_profile.pb" ∧
    (mainExportPut buildRes serialize).1.path = "put_profile.pb" := by
  constructor
  · cases buildRes with
    | error e => rfl
    | ok r =>
        simp only [mainExportGet, exportReport]
        cases serialize r <;> rfl
  · cases buildRes with
    | error e => rfl
    | ok r =>
        simp only [mainExportPut, exportReport]
        cases serialize r <;> rfl

/-- C10: every `wrap` call on one wrapper returns a store holding clones of
the wrapper's single pair of profiler handles, so stores from any number of
`wrap` calls record into the same two cells: running operations through two
wrapped stores in sequence accumulates, in the wrapper's single read-path
cell, one Sample per `get` of both runs combined. -/
theorem wrap_shares_profiler_handles (σ₁ σ₂ : Type)
    (w : ProfilingObjectStoreWrapper) (b₁ : Backend σ₁) (b₂ : Backend σ₂)
    (st₁ : σ₁) (st₂ : σ₂) (h : Heap) (ops₁ ops₂ : List Op)
    (hne : w.get_profile ≠ w.put_profile) :
    (w.wrap b₁).get_profiler = (w.wrap b₂).get_profiler ∧
    (w.wrap b₁).put_profiler = (w.wrap b₂).put_profiler ∧
    (w.wrap b₁).get_profiler = w.get_profile ∧
    (w.wrap b₁).put_profiler = w.put_profile ∧
    (runOps (w.wrap b₂) st₂
        (runOps (w.wrap b₁) st₁ h ops₁).2.2 ops₂).2.2 w.get_profile =
      appendN (h w.get_profile) (countGets ops₁ + countGets ops₂) := by
  refine ⟨rfl, rfl, rfl, rfl, ?_⟩
  have h1 := runOps_getSlot (w.wrap b₁) hne st₁ h ops₁
  have h2 := runOps_getSlot (w.wrap b₂) hne st₂
    ((runOps (w.wrap b₁) st₁ h ops₁).2.2) ops₂
  calc (runOps (w.wrap b₂) st₂
          (runOps (w.wrap b₁) st₁ h ops₁).2.2 ops₂).2.2 w.get_profile
      = appendN ((runOps (w.wrap b₁) st₁ h ops₁).2.2 w.get_profile)
          (countGets ops₂) := h2
    _ = appendN (appendN (h w.get_profile) (countGets ops₁))
          (countGets ops₂) :=
        congrArg (fun z => appendN z (countGets ops₂)) h1
    _ = appendN (h w.get_profile) (countGets ops₁ + countGets ops₂) :=
        appendN_add _ _ _

theorem wrap_shares_profiler_handles_witness :
    demoWrapper.get_profile ≠ demoWrapper.put_profile ∧
    ((demoWrapper.wrap unitBackend).get_profiler =
        (demoWrapper.wrap unitBackend).get_profiler ∧
     (demoWrapper.wrap unitBackend).put_profiler =
        (demoWrapper.wrap unitBackend).put_profiler ∧
     (demoWrapper.wrap unitBackend).get_profiler =
        demoWrapper.get_profile ∧
     (demoWrapper.wrap unitBackend).put_profiler =
        demoWrapper.put_profile ∧
     (runOps (demoWrapper.wrap unitBackend) ()
        (runOps (demoWrapper.wrap unitBackend) ()
          (initialHeap Profiler.new Profiler.new) [Op.get "a"]).2.2
        [Op.get "b", Op.put "c" [3]]).2.2 demoWrapper.get_profile =
      appendN ((initialHeap Profiler.new Profiler.new)
        demoWrapper.get_profile)
        (countGets [Op.get "a"] + countGets [Op.get "b", Op.put "c" [3]])) :=
  ⟨by decide, wrap_shares_profiler_handles Unit Unit demoWrapper unitBackend
    unitBackend () () (initialHeap Profiler.new Profiler.new) [Op.get "a"]
    [Op.get "b", Op.put "c" [3]] (by decide)⟩
